import Mathlib

/-!
Verification of the proxysql-agent control-plane logic.

This file gives a shallow embedding, in Lean, of the reconciliation,
shutdown and health-probe logic of the agent (package `proxysql` of the
repository, files `proxysql.go`, `core.go`, `satellite.go`), together with
theorems settling the specification claims about that logic.

Modelling conventions:
- Go `int` values become `Int` (counts can be `-1` in the source).
- The shutdown phase constants declared with `iota` become `Nat` constants.
- The administrative tables of ProxySQL (the "Topology Store") are reached
  through SQL commands; the store itself is external to the repository, so
  its tables are modelled as lists of rows with list semantics for
  `DELETE` / `INSERT`, and the `LOAD ... TO RUNTIME` commands as copies
  into a runtime field.
- Database replies, context cancellation and per-command shutdown checks
  are supplied as explicit oracles (functions out of `Nat`), one value per
  query or per loop iteration.
-/

namespace ProxysqlAgent

/-- Shutdown phase constants, mirroring the Go declaration
`type ShutdownPhase int` with `PhaseRunning ShutdownPhase = iota` followed
by `PhaseDraining`, `PhaseStopping`, `PhaseStopped` (proxysql.go). -/
def PhaseRunning : Nat := 0

/-- Second shutdown phase constant (`PhaseDraining`). -/
def PhaseDraining : Nat := 1

/-- Third shutdown phase constant (`PhaseStopping`). -/
def PhaseStopping : Nat := 2

/-- Fourth shutdown phase constant (`PhaseStopped`). -/
def PhaseStopped : Nat := 3

/-- Backend counts of a probe result, mirroring the anonymous struct in
`ProbeResult.Backends` (proxysql.go): total, online and shunned counts. -/
structure Backends where
  total : Int
  online : Int
  shunned : Int
deriving Repr, DecidableEq

/-- Probe result, mirroring `type ProbeResult struct` (proxysql.go). The
`Probe` field is omitted: it is only stamped by the HTTP layer, which is
out of scope. -/
structure ProbeResult where
  backends : Backends
  status : String
  message : String
  clients : Int
  draining : Bool
deriving Repr, DecidableEq

/-- Translation of `processResults` (proxysql.go): a Go `switch` whose
cases are tried in order. The first case of the source really is
`results.Backends.Online > results.Backends.Total`. -/
def processResults (results : ProbeResult) : ProbeResult :=
  if results.backends.online > results.backends.total then
    { results with status := "ok", message := "some backends offline" }
  else if results.backends.online = 0 then
    { results with status := "unhealthy", message := "all backends offline" }
  else if results.draining then
    { results with status := "draining", message := "draining traffic" }
  else
    { results with status := "ok", message := "all backends online" }

/-- Helper to build the probe input of the classification table. -/
def mkProbe (total online : Int) (draining : Bool) : ProbeResult :=
  { backends := { total := total, online := online, shunned := 0 }
    status := ""
    message := ""
    clients := 0
    draining := draining }

/-- Reply of the database to a single row query: an error, a SQL NULL, or
a value. Used to model `QueryRowContext(...).Scan(&x)` into a nullable. -/
inductive QueryReply (α : Type) where
  | err (msg : String)
  | null
  | val (v : α)
  deriving Repr, DecidableEq

/-- The mutable fields of `type ProxySQL struct` (proxysql.go) that the
shutdown and probe logic reads and writes: whether `p.conn` is non-nil,
the shutdown phase, whether the draining sentinel file exists, and whether
an HTTP server handle was registered via `SetHTTPServer`. -/
structure ProxySQLState where
  connOpen : Bool
  shutdownPhase : Nat
  drainFileExists : Bool
  httpServer : Bool
  deriving Repr, DecidableEq

/-- Translation of `IsShuttingDown` (proxysql.go):
`return p.shutdownPhase != PhaseRunning`, read under `shutdownMu.RLock`. -/
def IsShuttingDown (s : ProxySQLState) : Bool :=
  s.shutdownPhase != PhaseRunning

/-- Translation of `setShutdownPhase` (proxysql.go): write the phase under
`shutdownMu.Lock` (the logging of the old phase is dropped). -/
def setShutdownPhase (s : ProxySQLState) (phase : Nat) : ProxySQLState :=
  { s with shutdownPhase := phase }

/-- Result of one `ProbeClients` call: the returned client count, the
returned error, and how many SQL queries the call issued. -/
structure ClientsProbe where
  clients : Int
  queryErr : Option String
  queriesIssued : Nat
  deriving Repr, DecidableEq

/-- The SQL text of the client-count query in `ProbeClients`. -/
def clientsQuery : String :=
  "SELECT Client_Connections_connected FROM mysql_connections ORDER BY timestamp DESC LIMIT 1"

/-- Translation of `ProbeClients` (proxysql.go). If the connection is
closed or the instance is shutting down it returns 0 clients and no error
without touching the database; otherwise the reply of the database is
scanned into a nullable int: query error gives `-1` plus a wrapped error,
a NULL gives `-1` with no error, a value is returned as is. -/
def ProbeClients (s : ProxySQLState) (reply : QueryReply Int) : ClientsProbe :=
  if !s.connOpen || IsShuttingDown s then
    { clients := 0, queryErr := none, queriesIssued := 0 }
  else
    match reply with
    | .err m =>
      { clients := -1
        queryErr := some ("failed to query connection pool stats: command: "
          ++ clientsQuery ++ ", error: " ++ m)
        queriesIssued := 1 }
    | .val v => { clients := v, queryErr := none, queriesIssued := 1 }
    | .null => { clients := -1, queryErr := none, queriesIssued := 1 }

/-- Result of one shutdown step: the new state, the sequence of phase
values written by `setShutdownPhase` during the step, and the returned
error. -/
structure StepResult where
  state : ProxySQLState
  phaseWrites : List Nat
  err : Option String
  deriving Repr, DecidableEq

/-- Translation of `startDraining` (proxysql.go): set the phase to
`PhaseDraining`, create the drain file (an `os.Create` failure is returned
as an error), then issue `PROXYSQL PAUSE`, whose failure is logged and
deliberately ignored. `createOk` models whether `os.Create` succeeds. -/
def startDraining (s : ProxySQLState) (createOk : Bool) : StepResult :=
  let s1 := setShutdownPhase s PhaseDraining
  if createOk then
    { state := { s1 with drainFileExists := true }
      phaseWrites := [PhaseDraining], err := none }
  else
    { state := s1, phaseWrites := [PhaseDraining]
      err := some "failed to create drain file" }

/-- Why `waitForConnectionDrain` returned. -/
inductive DrainExit where
  | ctxDone
  | timeout
  | drained
  deriving Repr, DecidableEq

/-- Loop body of `waitForConnectionDrain` (satellite.go). Time is
discrete: the ticker fires every 2 seconds, so tick `t` happens at
elapsed time `2 * t` seconds. Each iteration first services context
cancellation (`done`), then the elapsed-time check
`time.Since(drainStart) >= drainTime`, then probes the client count:
a query error continues the loop, a zero count returns, any other count
continues. The fuel argument only bounds recursion; the theorems show the
loop always exits before any reasonable fuel runs out. -/
def waitLoop (s : ProxySQLState) (drainTime : Nat) (done : Nat → Bool)
    (reply : Nat → QueryReply Int) : Nat → Nat → Option (Nat × DrainExit)
  | 0, _ => none
  | fuel + 1, prev =>
    if done (prev + 1) then some (prev + 1, DrainExit.ctxDone)
    else if drainTime ≤ 2 * (prev + 1) then some (prev + 1, DrainExit.timeout)
    else
      let res := ProbeClients s (reply (prev + 1))
      if res.queryErr.isSome then waitLoop s drainTime done reply fuel (prev + 1)
      else if res.clients = 0 then some (prev + 1, DrainExit.drained)
      else waitLoop s drainTime done reply fuel (prev + 1)

/-- Translation of `waitForConnectionDrain` (satellite.go): run the tick
loop from tick 1 with enough fuel (`drainTime + 1` ticks) to reach the
elapsed-time bound. Returns the tick at which the loop exited and why. -/
def waitForConnectionDrain (s : ProxySQLState) (drainTime : Nat)
    (done : Nat → Bool) (reply : Nat → QueryReply Int) : Option (Nat × DrainExit) :=
  waitLoop s drainTime done reply (drainTime + 1) 0

/-- Translation of `gracefulShutdown` (satellite.go): wait for the
connection drain, enter `PhaseStopping`, issue `PROXYSQL SHUTDOWN SLOW`
(failure logged and ignored) and close the connection if it is open, shut
the HTTP server down if registered, then enter `PhaseStopped` and return
nil. The overall `shutdownCtx` deadline is modelled by the `done` oracle
consumed by the drain wait. -/
def gracefulShutdown (s : ProxySQLState) (drainTime : Nat)
    (done : Nat → Bool) (reply : Nat → QueryReply Int) : StepResult :=
  let _drain := waitForConnectionDrain s drainTime done reply
  let s2 := setShutdownPhase s PhaseStopping
  let s3 := if s2.connOpen then { s2 with connOpen := false } else s2
  let s4 := setShutdownPhase s3 PhaseStopped
  { state := s4, phaseWrites := [PhaseStopping, PhaseStopped], err := none }

/-- The phase values observable along one run of the shutdown sequence:
the initial phase, then every phase written by `startDraining` and by
`gracefulShutdown`, in program order. -/
def shutdownPhaseTrace (s₀ : ProxySQLState) (createOk : Bool) (drainTime : Nat)
    (done : Nat → Bool) (reply : Nat → QueryReply Int) : List Nat :=
  let r1 := startDraining s₀ createOk
  let r2 := gracefulShutdown r1.state drainTime done reply
  s₀.shutdownPhase :: (r1.phaseWrites ++ r2.phaseWrites)

/-- The three entry paths that can trigger the shutdown sequence: context
cancellation observed by `Core`, context cancellation observed by
`Satellite`, and the external `PreStopShutdown` HTTP trigger. -/
inductive TriggerPath where
  | coreCancel
  | satelliteCancel
  | preStop
  deriving Repr, DecidableEq

/-- The run-once guard (`p.shutdownOnce : sync.Once`) together with the
agent state and an instrumentation counter for how many times the drain
step (`startDraining`, shutdown-sequence step 1) has executed. -/
structure GuardedSystem where
  onceDone : Bool
  drainStarts : Nat
  agent : ProxySQLState
  deriving Repr, DecidableEq

/-- One shutdown trigger. All three entry paths run the same body
`p.shutdownOnce.Do(func() { p.startDraining(ctx); p.gracefulShutdown(ctx) })`
(core.go `Core`, satellite.go `Satellite` and `PreStopShutdown`), so the
path only records which entry fired. `sync.Once.Do` runs the body iff no
earlier call has; concurrent calls block until the first body completes,
so any concurrent mix of triggers is equivalent to some serial order. -/
def fireShutdownTrigger (createOk : Bool) (drainTime : Nat) (done : Nat → Bool)
    (reply : Nat → QueryReply Int) (sys : GuardedSystem) (_path : TriggerPath) :
    GuardedSystem :=
  if sys.onceDone then sys
  else
    let r1 := startDraining sys.agent createOk
    let r2 := gracefulShutdown r1.state drainTime done reply
    { onceDone := true, drainStarts := sys.drainStarts + 1, agent := r2.state }

/-- Fire a whole sequence of shutdown triggers (any mix of paths). -/
def fireAll (createOk : Bool) (drainTime : Nat) (done : Nat → Bool)
    (reply : Nat → QueryReply Int) (sys : GuardedSystem)
    (ts : List TriggerPath) : GuardedSystem :=
  ts.foldl (fireShutdownTrigger createOk drainTime done reply) sys

/-- Translation of `context.WithTimeout(parent, d)`: the child context is
cancelled when the parent is cancelled or `d` elapses, whichever comes
first, so its remaining budget is the minimum of the two. -/
def ctxWithTimeout (parentRemaining d : Nat) : Nat :=
  min parentRemaining d

/-- Budget, in seconds, of the HTTP-server stop step of
`gracefulShutdown` (satellite.go). The source derives
`shutdownCtx := context.WithTimeout(ctx, shutdownTimeout)` at the top of
`gracefulShutdown` and then, after `elapsed` seconds of draining and
ProxySQL stopping, derives
`serverShutdownCtx := context.WithTimeout(shutdownCtx, 10*time.Second)`
for `httpServer.Shutdown`. -/
def transportStopBudget (ctxRemaining shutdownTimeout elapsed : Nat) : Nat :=
  ctxWithTimeout (ctxWithTimeout ctxRemaining shutdownTimeout - elapsed) 10

/-- The sentinel hostname of the placeholder row. -/
def placeholderHost : String := "proxysql-core"

/-- One row of the `proxysql_servers` administrative table: hostname,
port, weight and comment, as inserted by
`INSERT INTO proxysql_servers VALUES (%q, %d, 0, %q)`. -/
structure ServerRow where
  hostname : String
  port : Int
  weight : Int
  comment : String
  deriving Repr, DecidableEq

/-- The Topology Store: the in-memory `proxysql_servers` table, and the
runtime copy that `LOAD PROXYSQL SERVERS TO RUNTIME` refreshes. The store
itself is ProxySQL, external to this repository; it is modelled with list
semantics for the SQL commands the agent issues. -/
structure TopoState where
  servers : List ServerRow
  runtimeServers : List ServerRow
  deriving Repr, DecidableEq

/-- The SQL commands issued by the reconciliation procedures (core.go
`addPodToCluster` / `removePodFromCluster`, satellite.go
`SatelliteResync`), one constructor per distinct command shape. -/
inductive Cmd where
  | deletePlaceholder
  | deleteHostname (h : String)
  | insertServer (hostname : String) (port : Int) (weight : Int) (comment : String)
  | deleteAllServers
  | loadServersFromConfig
  | loadServersToRuntime
  | loadServersToRuntimeSemi
  | loadAdminVariables
  | loadMysqlVariables
  | loadMysqlServers
  | loadMysqlUsers
  | loadMysqlQueryRules
  deriving Repr, DecidableEq

/-- Rendering of Go `%q` for the strings that occur here (pod IPs and pod
names, which contain no characters `%q` would escape): wrap in double
quotes. -/
def goQuote (s : String) : String := "\"" ++ s ++ "\""

/-- The exact SQL text of each command as built by the Go source.
`deletePlaceholder` is a literal with single quotes in `addPodToCluster`;
`deleteHostname` is built with `%q` (double quotes) in
`removePodFromCluster`; the resync variant of the servers load carries the
trailing semicolon the source writes. -/
def cmdText : Cmd → String
  | .deletePlaceholder => "DELETE FROM proxysql_servers WHERE hostname = 'proxysql-core'"
  | .deleteHostname h => "DELETE FROM proxysql_servers WHERE hostname = " ++ goQuote h
  | .insertServer h p w c =>
    "INSERT INTO proxysql_servers VALUES (" ++ goQuote h ++ ", " ++ toString p
      ++ ", " ++ toString w ++ ", " ++ goQuote c ++ ")"
  | .deleteAllServers => "DELETE FROM proxysql_servers"
  | .loadServersFromConfig => "LOAD PROXYSQL SERVERS FROM CONFIG"
  | .loadServersToRuntime => "LOAD PROXYSQL SERVERS TO RUNTIME"
  | .loadServersToRuntimeSemi => "LOAD PROXYSQL SERVERS TO RUNTIME;"
  | .loadAdminVariables => "LOAD ADMIN VARIABLES TO RUNTIME"
  | .loadMysqlVariables => "LOAD MYSQL VARIABLES TO RUNTIME"
  | .loadMysqlServers => "LOAD MYSQL SERVERS TO RUNTIME"
  | .loadMysqlUsers => "LOAD MYSQL USERS TO RUNTIME"
  | .loadMysqlQueryRules => "LOAD MYSQL QUERY RULES TO RUNTIME"

/-- Effect of one command on the Topology Store. `cfg` is the server list
of the static configuration file, the source of
`LOAD PROXYSQL SERVERS FROM CONFIG`. The variables / users / query-rules
loads touch tables outside the modelled store. -/
def applyCmd (cfg : List ServerRow) (s : TopoState) : Cmd → TopoState
  | .deletePlaceholder =>
    { s with servers := s.servers.filter (fun r => r.hostname != placeholderHost) }
  | .deleteHostname h =>
    { s with servers := s.servers.filter (fun r => r.hostname != h) }
  | .insertServer h p w c => { s with servers := s.servers ++ [⟨h, p, w, c⟩] }
  | .deleteAllServers => { s with servers := [] }
  | .loadServersFromConfig => { s with servers := cfg }
  | .loadServersToRuntime => { s with runtimeServers := s.servers }
  | .loadServersToRuntimeSemi => { s with runtimeServers := s.servers }
  | .loadAdminVariables => s
  | .loadMysqlVariables => s
  | .loadMysqlServers => s
  | .loadMysqlUsers => s
  | .loadMysqlQueryRules => s

/-- A pod as seen by the informer callbacks: name, IP, the value of its
`component` label, and its lifecycle phase. -/
structure Pod where
  name : String
  ip : String
  component : String
  phase : String
  deriving Repr, DecidableEq

/-- The fixed ordered block of six load-to-runtime commands appended by
both `addPodToCluster` and `removePodFromCluster`. -/
def loadToRuntimeCmds : List Cmd :=
  [Cmd.loadServersToRuntime, Cmd.loadAdminVariables, Cmd.loadMysqlVariables,
   Cmd.loadMysqlServers, Cmd.loadMysqlUsers, Cmd.loadMysqlQueryRules]

/-- The command list built by `addPodToCluster` (core.go): delete the
placeholder row, then, only for a pod whose `component` label is `core`,
insert its row with weight 0, then the six loads. -/
def addPodCommands (pod : Pod) (port : Int) : List Cmd :=
  [Cmd.deletePlaceholder]
    ++ (if pod.component = "core" then [Cmd.insertServer pod.ip port 0 pod.name] else [])
    ++ loadToRuntimeCmds

/-- The command list built by `removePodFromCluster` (core.go): delete the
pod's row only for a `core` pod, then the six loads. -/
def removePodCommands (pod : Pod) : List Cmd :=
  (if pod.component = "core" then [Cmd.deleteHostname pod.ip] else [])
    ++ loadToRuntimeCmds

/-- The command list of `SatelliteResync` (satellite.go) when core pods
are missing. -/
def resyncCommands : List Cmd :=
  [Cmd.deleteAllServers, Cmd.loadServersFromConfig, Cmd.loadServersToRuntimeSemi]

/-- The command loop shared by the reconciliation procedures:
`for _, command := range commands { if p.IsShuttingDown() { return nil };
if _, err := exec(command); err != nil { return wrapped err } }`.
The `shut` oracle gives the answer of the `IsShuttingDown` check made
immediately before the command at each index, the `execErr` oracle the
failure (if any) of executing it; a failing command leaves the store
unchanged. Returns the final store, the commands actually executed, and
the returned error. -/
def runCmds (cfg : List ServerRow) (shut : Nat → Bool) (execErr : Nat → Option String) :
    List Cmd → Nat → TopoState → List Cmd → TopoState × List Cmd × Option String
  | [], _, s, acc => (s, acc.reverse, none)
  | c :: rest, i, s, acc =>
    if shut i then (s, acc.reverse, none)
    else
      match execErr i with
      | some e =>
        (s, acc.reverse,
          some ("failed to execute command '" ++ cmdText c ++ "': " ++ e))
      | none => runCmds cfg shut execErr rest (i + 1) (applyCmd cfg s c) (c :: acc)

/-- Translation of `addPodToCluster` (core.go). Check index 0 is the
`IsShuttingDown` guard at the top of the function; check index `i + 1` is
the per-command check before the i-th command of `addPodCommands`. -/
def addPodToCluster (cfg : List ServerRow) (shut : Nat → Bool)
    (execErr : Nat → Option String) (pod : Pod) (port : Int) (s : TopoState) :
    TopoState × List Cmd × Option String :=
  if shut 0 then (s, [], none)
  else runCmds cfg (fun i => shut (i + 1)) execErr (addPodCommands pod port) 0 s []

/-- Translation of `removePodFromCluster` (core.go), with the same check
indexing as `addPodToCluster`. -/
def removePodFromCluster (cfg : List ServerRow) (shut : Nat → Bool)
    (execErr : Nat → Option String) (pod : Pod) (s : TopoState) :
    TopoState × List Cmd × Option String :=
  if shut 0 then (s, [], none)
  else runCmds cfg (fun i => shut (i + 1)) execErr (removePodCommands pod) 0 s []

/-- Translation of `SatelliteResync` (satellite.go). Check index 0 is the
guard at the top of `SatelliteResync`; check index 1 is the guard inside
`GetMissingCorePods` (which returns count `-1` with no error when the
connection is closed or shutdown has begun); check index `i + 2` is the
per-command check before the i-th resync command. `missingReply` is the
reply of the missing-core-pods count query. -/
def SatelliteResync (cfg : List ServerRow) (shut : Nat → Bool)
    (execErr : Nat → Option String) (missingReply : Except String Int)
    (s : TopoState) : TopoState × List Cmd × Option String :=
  if shut 0 then (s, [], none)
  else
    match (if shut 1 then Except.ok (-1) else missingReply : Except String Int) with
    | .error e => (s, [], some e)
    | .ok missing =>
      if 0 < missing then
        runCmds cfg (fun i => shut (i + 2)) execErr resyncCommands 0 s []
      else (s, [], none)

/-- Translation of `podAdded` (core.go), the bootstrap join callback.
`hostnameOk` models `os.Hostname()` succeeding with a name equal to
`pod.Name` (otherwise the callback returns at once). The callback then
counts rows of `proxysql_servers` whose hostname equals the pod IP — the
query reads the very table modelled here — and only when the count is
zero does it run `addPodToCluster`. Callback errors are logged, not
returned, so the result is just the store. -/
def podAdded (cfg : List ServerRow) (hostnameOk : Bool) (shut : Nat → Bool)
    (execErr : Nat → Option String) (pod : Pod) (port : Int) (s : TopoState) :
    TopoState :=
  if !hostnameOk then s
  else if 0 < (s.servers.filter (fun r => r.hostname == pod.ip)).length then s
  else (addPodToCluster cfg shut execErr pod port s).1

/-- A reconciliation procedure applied to the store, together with the
check index (`cut`) at which the shutdown-phase checks start answering
true: `cut` larger than the number of checks is a run to completion, and
any smaller `cut` is a run truncated by a shutdown race. -/
inductive TopoOp where
  | join (pod : Pod) (port : Int) (cut : Nat)
  | leave (pod : Pod) (cut : Nat)
  deriving Repr, DecidableEq

/-- The shutdown oracle of a procedure that observes draining from check
index `k` on (the phase is monotone, so once shutting down, always). -/
def shutAt (k : Nat) : Nat → Bool := fun i => decide (k ≤ i)

/-- The store effect of one join or leave procedure (errors absent). -/
def applyOp (cfg : List ServerRow) (s : TopoState) : TopoOp → TopoState
  | .join pod port cut => (addPodToCluster cfg (shutAt cut) (fun _ => none) pod port s).1
  | .leave pod cut => (removePodFromCluster cfg (shutAt cut) (fun _ => none) pod s).1

/-- Is the placeholder row present in the store? -/
def placeholderPresent (s : TopoState) : Bool :=
  s.servers.any (fun r => r.hostname == placeholderHost)

/-- Number of primary-role Topology Rows: the rows of `proxysql_servers`
other than the placeholder row. -/
def primaryRowCount (s : TopoState) : Nat :=
  (s.servers.filter (fun r => r.hostname != placeholderHost)).length

/-- The placeholder invariant as the spec states it (an iff). -/
def placeholderInvariant (s : TopoState) : Prop :=
  placeholderPresent s = true ↔ primaryRowCount s = 0

/-- No join in the sequence registers a pod whose IP collides with the
sentinel hostname. -/
def TopoOp.ipOk : TopoOp → Prop
  | .join pod _ _ => pod.ip ≠ placeholderHost
  | .leave _ _ => True

/-- The condition on which tick `t` the drain-wait loop may exit: the
context fired, the elapsed time reached the drain timeout, or the client
probe succeeded and reported zero clients. The loop returns at the first
tick satisfying this condition. -/
def drainExitCond (s : ProxySQLState) (drainTime : Nat) (done : Nat → Bool)
    (reply : Nat → QueryReply Int) (t : Nat) : Prop :=
  done t = true ∨ drainTime ≤ 2 * t ∨
    ((ProbeClients s (reply t)).queryErr = none ∧
      (ProbeClients s (reply t)).clients = 0)

/-- One direction of the placeholder invariant: if the placeholder row is
present then there are no primary-role rows. -/
def oneDirInv (s : TopoState) : Prop :=
  placeholderPresent s = true → primaryRowCount s = 0

/-- C1: probe classification. The code deviates from the spec table at
the partial-loss row: for total 3, online 2, draining false the spec
demands status "ok" with a "some backends offline" message, but the code
guards that message with the inverted comparison
`Online > Total`, so this input falls through to the default branch and
the message is "all backends online". The other three table rows agree
with the spec. -/
theorem processResults_partial_loss_message :
    (processResults (mkProbe 3 2 false)).status = "ok" ∧
    (processResults (mkProbe 3 2 false)).message = "all backends online" ∧
    (processResults (mkProbe 3 2 false)).message ≠ "some backends offline" ∧
    (processResults (mkProbe 3 3 false)).status = "ok" ∧
    (processResults (mkProbe 3 0 false)).status = "unhealthy" ∧
    (processResults (mkProbe 3 2 true)).status = "draining" := by
  refine ⟨rfl, rfl, ?_, rfl, rfl, rfl⟩
  decide

/-- A state whose shutdown phase is not `PhaseRunning` is shutting down. -/
theorem isShuttingDown_of_ne {s : ProxySQLState}
    (h : s.shutdownPhase ≠ PhaseRunning) : IsShuttingDown s = true := by
  simp [IsShuttingDown, h]

/-- A shutting-down state makes `ProbeClients` return zero clients, no
error, and no queries, whatever the database would have replied. -/
theorem probeClients_of_shuttingDown {s : ProxySQLState}
    (h : s.shutdownPhase ≠ PhaseRunning) (reply : QueryReply Int) :
    ProbeClients s reply = { clients := 0, queryErr := none, queriesIssued := 0 } := by
  simp [ProbeClients, isShuttingDown_of_ne h]

/-- The state left by `startDraining` is in phase `PhaseDraining`. -/
theorem startDraining_phase (s : ProxySQLState) (createOk : Bool) :
    (startDraining s createOk).state.shutdownPhase = PhaseDraining := by
  cases createOk <;> rfl

/-- When every probe of the loop reports zero clients, `waitLoop` exits on
the very first tick it runs, whichever of its three exits fires there. -/
theorem waitLoop_first_tick {s : ProxySQLState} {drainTime : Nat}
    {done : Nat → Bool} {reply : Nat → QueryReply Int}
    (hprobe : ∀ n, ProbeClients s (reply n)
      = { clients := 0, queryErr := none, queriesIssued := 0 })
    (fuel prev : Nat) :
    ∃ r, waitLoop s drainTime done reply (fuel + 1) prev = some (prev + 1, r) := by
  by_cases h1 : done (prev + 1)
  · exact ⟨DrainExit.ctxDone, by simp [waitLoop, h1]⟩
  · by_cases h2 : drainTime ≤ 2 * (prev + 1)
    · exact ⟨DrainExit.timeout, by simp [waitLoop, h1, h2]⟩
    · exact ⟨DrainExit.drained, by simp [waitLoop, h1, h2, hprobe]⟩

/-- C2: when the shutdown phase is not Running, `ProbeClients` returns
the pair (0, no error) without issuing any query; `startDraining` puts the
state into the Draining phase before `gracefulShutdown` starts the drain
wait, so every client probe inside `waitForConnectionDrain` observes zero
clients and the drain-wait loop returns on its first tick, regardless of
the connected-client count the database would report. -/
theorem ProbeClients_shutdown_first_tick :
    (∀ (s : ProxySQLState) (reply : QueryReply Int),
      s.shutdownPhase ≠ PhaseRunning →
      ProbeClients s reply = { clients := 0, queryErr := none, queriesIssued := 0 }) ∧
    (∀ (s₀ : ProxySQLState) (createOk : Bool),
      (startDraining s₀ createOk).state.shutdownPhase = PhaseDraining) ∧
    (∀ (s₀ : ProxySQLState) (createOk : Bool) (drainTime : Nat)
      (done : Nat → Bool) (reply : Nat → QueryReply Int),
      ∃ r, waitForConnectionDrain (startDraining s₀ createOk).state
        drainTime done reply = some (1, r)) := by
  have hdrain : ∀ (s₀ : ProxySQLState) (createOk : Bool),
      (startDraining s₀ createOk).state.shutdownPhase ≠ PhaseRunning := by
    intro s₀ createOk
    rw [startDraining_phase]
    simp [PhaseDraining, PhaseRunning]
  refine ⟨fun s reply h => probeClients_of_shuttingDown h reply,
    startDraining_phase, fun s₀ createOk drainTime done reply => ?_⟩
  exact waitLoop_first_tick
    (fun n => probeClients_of_shuttingDown (hdrain s₀ createOk) (reply n))
    drainTime 0

/-- Closed instance of the C2 theorem at a concrete running state, with a
database that would report 7 connected clients. -/
theorem ProbeClients_shutdown_first_tick_witness :
    ProbeClients ⟨true, 1, true, false⟩ (QueryReply.val 7)
      = { clients := 0, queryErr := none, queriesIssued := 0 } ∧
    (∃ r, waitForConnectionDrain
      (startDraining ⟨true, 0, false, false⟩ true).state 30
      (fun _ => false) (fun _ => QueryReply.val 7) = some (1, r)) :=
  ⟨ProbeClients_shutdown_first_tick.1 ⟨true, 1, true, false⟩ (QueryReply.val 7)
      (by decide),
    ProbeClients_shutdown_first_tick.2.2 ⟨true, 0, false, false⟩ true 30
      (fun _ => false) (fun _ => QueryReply.val 7)⟩

/-- C4: along a run of the shutdown sequence (startDraining followed by
gracefulShutdown, as executed once under the run-once guard) started in
the Running phase, the observable phase values are Running, Draining,
Stopping, Stopped in that order, so the phase never moves backwards. -/
theorem shutdownPhaseTrace_monotone :
    ∀ (s₀ : ProxySQLState) (createOk : Bool) (drainTime : Nat)
      (done : Nat → Bool) (reply : Nat → QueryReply Int),
      s₀.shutdownPhase = PhaseRunning →
      shutdownPhaseTrace s₀ createOk drainTime done reply
        = [PhaseRunning, PhaseDraining, PhaseStopping, PhaseStopped] ∧
      List.Pairwise (· ≤ ·) (shutdownPhaseTrace s₀ createOk drainTime done reply) := by
  intro s₀ createOk drainTime done reply h
  have htrace : shutdownPhaseTrace s₀ createOk drainTime done reply
      = [PhaseRunning, PhaseDraining, PhaseStopping, PhaseStopped] := by
    cases createOk <;>
      simp [shutdownPhaseTrace, startDraining, gracefulShutdown, h]
  refine ⟨htrace, ?_⟩
  rw [htrace]
  decide

/-- Closed instance of the C4 theorem at a concrete initial state. -/
theorem shutdownPhaseTrace_monotone_witness :
    List.Pairwise (· ≤ ·) (shutdownPhaseTrace ⟨true, 0, false, true⟩ true 30
      (fun _ => false) (fun _ => QueryReply.val 0)) :=
  (shutdownPhaseTrace_monotone ⟨true, 0, false, true⟩ true 30
    (fun _ => false) (fun _ => QueryReply.val 0) rfl).2

/-- Once the guard has fired, further triggers leave the system alone. -/
theorem fireAll_of_done (createOk : Bool) (drainTime : Nat) (done : Nat → Bool)
    (reply : Nat → QueryReply Int) :
    ∀ (ts : List TriggerPath) (sys : GuardedSystem), sys.onceDone = true →
      fireAll createOk drainTime done reply sys ts = sys := by
  intro ts
  induction ts with
  | nil => intro sys _; rfl
  | cons p rest ih =>
    intro sys h
    have hstep : fireShutdownTrigger createOk drainTime done reply sys p = sys := by
      simp [fireShutdownTrigger, h]
    show fireAll createOk drainTime done reply
      (fireShutdownTrigger createOk drainTime done reply sys p) rest = sys
    rw [hstep]
    exact ih sys h

/-- C5: firing the shutdown trigger any positive number of times, through
any mix of the three entry paths, executes the drain step (startDraining,
shutdown-sequence step 1) exactly once. Concurrent triggers serialize on
the `sync.Once` latch, so any concurrent mix is some serial order, which
is what the trigger list ranges over. -/
theorem shutdown_trigger_once :
    ∀ (createOk : Bool) (drainTime : Nat) (done : Nat → Bool)
      (reply : Nat → QueryReply Int) (s₀ : ProxySQLState)
      (ts : List TriggerPath),
      ts ≠ [] →
      (fireAll createOk drainTime done reply
        { onceDone := false, drainStarts := 0, agent := s₀ } ts).drainStarts = 1 := by
  intro createOk drainTime done reply s₀ ts hne
  cases ts with
  | nil => exact absurd rfl hne
  | cons p rest =>
    show (fireAll createOk drainTime done reply
      (fireShutdownTrigger createOk drainTime done reply
        { onceDone := false, drainStarts := 0, agent := s₀ } p) rest).drainStarts = 1
    rw [fireAll_of_done createOk drainTime done reply rest _ (by rfl)]
    rfl

/-- Closed instance of the C5 theorem: three triggers, one from each
entry path, execute the drain step once. -/
theorem shutdown_trigger_once_witness :
    (fireAll true 30 (fun _ => false) (fun _ => QueryReply.val 0)
      { onceDone := false, drainStarts := 0, agent := ⟨true, 0, false, false⟩ }
      [TriggerPath.preStop, TriggerPath.coreCancel,
        TriggerPath.satelliteCancel]).drainStarts = 1 :=
  shutdown_trigger_once true 30 (fun _ => false) (fun _ => QueryReply.val 0)
    ⟨true, 0, false, false⟩ _ (by decide)

/-- C9 counterexample: the transport-stop budget is not independent of
the overall deadline's remaining budget. With 30 s of overall shutdown
timeout of which 29 s are already spent, the HTTP-server stop gets 1 s;
with nothing spent it gets its full 10 s; so the allotted time shrinks
with the remaining overall budget. -/
theorem transportStopBudget_shrinks :
    transportStopBudget 1000 30 29 = 1 ∧
    transportStopBudget 1000 30 0 = 10 ∧
    transportStopBudget 1000 30 29 < transportStopBudget 1000 30 0 := by
  decide

/-- C9 amended: the transport-stop step has its own 10-second timeout,
but the timeout context is derived from the overall shutdown context, so
the allotted time is the minimum of 10 seconds and the overall deadline's
remaining budget, equalling 10 s only when at least 10 s remain. -/
theorem transportStopBudget_capped :
    ∀ ctxRemaining shutdownTimeout elapsed : Nat,
      transportStopBudget ctxRemaining shutdownTimeout elapsed ≤ 10 ∧
      transportStopBudget ctxRemaining shutdownTimeout elapsed
        ≤ ctxWithTimeout ctxRemaining shutdownTimeout - elapsed ∧
      (10 ≤ ctxWithTimeout ctxRemaining shutdownTimeout - elapsed →
        transportStopBudget ctxRemaining shutdownTimeout elapsed = 10) :=
  fun _ _ _ =>
    ⟨Nat.min_le_right _ _, Nat.min_le_left _ _, fun h => Nat.min_eq_right h⟩

/-- Closed instance of the C9 amended theorem. -/
theorem transportStopBudget_capped_witness :
    transportStopBudget 1000 30 0 ≤ 10 ∧ transportStopBudget 1000 30 0 = 10 :=
  ⟨(transportStopBudget_capped 1000 30 0).1,
    (transportStopBudget_capped 1000 30 0).2.2 (by decide)⟩

/-- The drain-wait loop, run with enough fuel, exits at the first tick
satisfying `drainExitCond`, and that tick is within one polling interval
of the drain timeout. -/
theorem waitLoop_exits (s : ProxySQLState) (drainTime : Nat)
    (done : Nat → Bool) (reply : Nat → QueryReply Int) :
    ∀ (fuel prev : Nat),
      (prev = 0 ∨ 2 * prev < drainTime) →
      drainTime ≤ 2 * prev + 2 * fuel →
      1 ≤ fuel →
      ∃ t r, waitLoop s drainTime done reply fuel prev = some (t, r) ∧
        2 * t ≤ drainTime + 2 ∧ prev < t ∧
        drainExitCond s drainTime done reply t ∧
        (∀ u, prev < u → u < t → ¬ drainExitCond s drainTime done reply u) := by
  intro fuel
  induction fuel with
  | zero => intro prev _ _ hfuel; omega
  | succ n ih =>
    intro prev hinv hbudget _
    have hb : 2 * (prev + 1) ≤ drainTime + 2 := by omega
    by_cases h1 : done (prev + 1) = true
    · refine ⟨prev + 1, DrainExit.ctxDone, by simp [waitLoop, h1], hb,
        Nat.lt_succ_self _, Or.inl h1, ?_⟩
      intro u hu1 hu2 _
      omega
    · by_cases h2 : drainTime ≤ 2 * (prev + 1)
      · refine ⟨prev + 1, DrainExit.timeout, by simp [waitLoop, h1, h2], hb,
          Nat.lt_succ_self _, Or.inr (Or.inl h2), ?_⟩
        intro u hu1 hu2 _
        omega
      · have hlt : 2 * (prev + 1) < drainTime := by omega
        have hn : 1 ≤ n := by omega
        have hbudget' : drainTime ≤ 2 * (prev + 1) + 2 * n := by omega
        have hinv' : prev + 1 = 0 ∨ 2 * (prev + 1) < drainTime := Or.inr hlt
        by_cases h3 : (ProbeClients s (reply (prev + 1))).queryErr.isSome = true
        · obtain ⟨t, r, heq, hb', hlt', hcond, hmin⟩ := ih (prev + 1) hinv' hbudget' hn
          have hstep : waitLoop s drainTime done reply (n + 1) prev
              = waitLoop s drainTime done reply n (prev + 1) := by
            simp [waitLoop, h1, h2, h3]
          refine ⟨t, r, hstep.trans heq, hb', by omega, hcond, ?_⟩
          intro u hu1 hu2
          by_cases hu : u = prev + 1
          · subst hu
            intro hc
            rcases hc with hd | ht | ⟨herr, _⟩
            · exact h1 hd
            · exact h2 ht
            · rw [herr] at h3
              simp at h3
          · exact hmin u (by omega) hu2
        · have herr : (ProbeClients s (reply (prev + 1))).queryErr = none := by
            rcases hq : (ProbeClients s (reply (prev + 1))).queryErr with _ | e
            · rfl
            · rw [hq] at h3
              simp at h3
          by_cases h4 : (ProbeClients s (reply (prev + 1))).clients = 0
          · refine ⟨prev + 1, DrainExit.drained, ?_, hb, Nat.lt_succ_self _,
              Or.inr (Or.inr ⟨herr, h4⟩), ?_⟩
            · simp [waitLoop, h1, h2, h3, h4]
            · intro u hu1 hu2 _
              omega
          · obtain ⟨t, r, heq, hb', hlt', hcond, hmin⟩ := ih (prev + 1) hinv' hbudget' hn
            have hstep : waitLoop s drainTime done reply (n + 1) prev
                = waitLoop s drainTime done reply n (prev + 1) := by
              simp [waitLoop, h1, h2, h3, h4]
            refine ⟨t, r, hstep.trans heq, hb', by omega, hcond, ?_⟩
            intro u hu1 hu2
            by_cases hu : u = prev + 1
            · subst hu
              intro hc
              rcases hc with hd | ht | ⟨_, hcl⟩
              · exact h1 hd
              · exact h2 ht
              · exact h4 hcl
            · exact hmin u (by omega) hu2

/-- C8: if the connected-client count never reaches zero, the drain-wait
step still returns, at a tick whose elapsed time is at most the drain
timeout plus one 2-second polling interval; moreover it returns at the
first tick at which the overall deadline fired, the timeout elapsed, or a
successful poll observed zero clients, so it returns early on those
events and never waits indefinitely. -/
theorem waitForConnectionDrain_bounded :
    ∀ (s : ProxySQLState) (drainTime : Nat) (done : Nat → Bool)
      (reply : Nat → QueryReply Int),
      (∀ n, (ProbeClients s (reply n)).clients ≠ 0) →
      ∃ t r, waitForConnectionDrain s drainTime done reply = some (t, r) ∧
        2 * t ≤ drainTime + 2 ∧
        drainExitCond s drainTime done reply t ∧
        (∀ u, 0 < u → u < t → ¬ drainExitCond s drainTime done reply u) := by
  intro s drainTime done reply _
  obtain ⟨t, r, heq, hb, _, hcond, hmin⟩ :=
    waitLoop_exits s drainTime done reply (drainTime + 1) 0 (Or.inl rfl)
      (by omega) (by omega)
  exact ⟨t, r, heq, hb, hcond, hmin⟩

/-- Closed instance of the C8 theorem: a database that always reports 5
connected clients, a 5-second drain timeout, no cancellation. -/
theorem waitForConnectionDrain_bounded_witness :
    ∃ t r, waitForConnectionDrain ⟨true, 0, false, false⟩ 5 (fun _ => false)
      (fun _ => QueryReply.val 5) = some (t, r) ∧
      2 * t ≤ 5 + 2 ∧
      drainExitCond ⟨true, 0, false, false⟩ 5 (fun _ => false)
        (fun _ => QueryReply.val 5) t ∧
      (∀ u, 0 < u → u < t → ¬ drainExitCond ⟨true, 0, false, false⟩ 5
        (fun _ => false) (fun _ => QueryReply.val 5) u) :=
  waitForConnectionDrain_bounded ⟨true, 0, false, false⟩ 5 (fun _ => false)
    (fun _ => QueryReply.val 5)
    (fun _ => by simp [ProbeClients, IsShuttingDown, PhaseRunning])

/-- The command loop runs every command, in order, when no shutdown check
fires and no command fails. -/
theorem runCmds_total (cfg : List ServerRow) (shut : Nat → Bool)
    (execErr : Nat → Option String) (hshut : ∀ i, shut i = false)
    (herr : ∀ i, execErr i = none) :
    ∀ (cmds : List Cmd) (i : Nat) (s : TopoState) (acc : List Cmd),
      runCmds cfg shut execErr cmds i s acc
        = (cmds.foldl (applyCmd cfg) s, acc.reverse ++ cmds, none) := by
  intro cmds
  induction cmds with
  | nil => intro i s acc; simp [runCmds]
  | cons c rest ih =>
    intro i s acc
    simp [runCmds, hshut i, herr i, ih (i + 1)]

/-- Under the monotone shutdown oracle `shutAt k`, the command loop runs
exactly the commands before check index `k` and returns success. -/
theorem runCmds_shutAt (cfg : List ServerRow) (k : Nat) :
    ∀ (cmds : List Cmd) (i : Nat) (s : TopoState) (acc : List Cmd),
      runCmds cfg (shutAt k) (fun _ => none) cmds i s acc
        = ((cmds.take (k - i)).foldl (applyCmd cfg) s,
           acc.reverse ++ cmds.take (k - i), none) := by
  intro cmds
  induction cmds with
  | nil => intro i s acc; simp [runCmds]
  | cons c rest ih =>
    intro i s acc
    by_cases hik : k ≤ i
    · have h0 : k - i = 0 := by omega
      have hs : shutAt k i = true := by simp [shutAt, hik]
      simp [runCmds, hs, h0]
    · have hs : shutAt k i = false := by
        simp only [shutAt, decide_eq_false_iff_not]
        omega
      have htake : k - i = (k - (i + 1)) + 1 := by omega
      rw [htake]
      simp [runCmds, hs, ih (i + 1), List.take_succ_cons]

/-- Shifting a monotone shutdown oracle by a fixed number of earlier
checks. -/
theorem shutAt_shift (k c : Nat) : (fun i => shutAt k (i + c)) = shutAt (k - c) := by
  funext i
  simp only [shutAt]
  rw [decide_eq_decide]
  omega

/-- With no shutdown and no errors, `addPodToCluster` executes its whole
command list and returns nil. -/
theorem addPodToCluster_no_shutdown (cfg : List ServerRow) (pod : Pod)
    (port : Int) (s : TopoState) :
    addPodToCluster cfg (fun _ => false) (fun _ => none) pod port s
      = ((addPodCommands pod port).foldl (applyCmd cfg) s,
         addPodCommands pod port, none) := by
  show (if false then _ else runCmds cfg _ _ (addPodCommands pod port) 0 s []) = _
  rw [if_neg (by simp)]
  rw [runCmds_total cfg _ _ (fun _ => rfl) (fun _ => rfl)]
  simp

/-- C6: with no shutdown race and no command errors, the join procedure
returns nil and issues exactly the spec's command sequence: delete the
placeholder row; for a primary-role (label `component = core`) member,
insert its row (IP, port, weight 0, name); then the six load-to-runtime
statements in the fixed order servers, admin variables, mysql variables,
mysql servers, mysql users, mysql query rules. For a non-primary member
exactly the insert is omitted. -/
theorem addPodToCluster_command_sequence :
    ∀ (cfg : List ServerRow) (pod : Pod) (port : Int) (s : TopoState),
      (addPodToCluster cfg (fun _ => false) (fun _ => none) pod port s).2.2 = none ∧
      (pod.component = "core" →
        ((addPodToCluster cfg (fun _ => false) (fun _ => none) pod port s).2.1.map cmdText)
          = ["DELETE FROM proxysql_servers WHERE hostname = 'proxysql-core'",
             "INSERT INTO proxysql_servers VALUES (" ++ goQuote pod.ip ++ ", "
               ++ toString port ++ ", " ++ toString (0 : Int) ++ ", "
               ++ goQuote pod.name ++ ")",
             "LOAD PROXYSQL SERVERS TO RUNTIME",
             "LOAD ADMIN VARIABLES TO RUNTIME",
             "LOAD MYSQL VARIABLES TO RUNTIME",
             "LOAD MYSQL SERVERS TO RUNTIME",
             "LOAD MYSQL USERS TO RUNTIME",
             "LOAD MYSQL QUERY RULES TO RUNTIME"]) ∧
      (pod.component ≠ "core" →
        ((addPodToCluster cfg (fun _ => false) (fun _ => none) pod port s).2.1.map cmdText)
          = ["DELETE FROM proxysql_servers WHERE hostname = 'proxysql-core'",
             "LOAD PROXYSQL SERVERS TO RUNTIME",
             "LOAD ADMIN VARIABLES TO RUNTIME",
             "LOAD MYSQL VARIABLES TO RUNTIME",
             "LOAD MYSQL SERVERS TO RUNTIME",
             "LOAD MYSQL USERS TO RUNTIME",
             "LOAD MYSQL QUERY RULES TO RUNTIME"]) := by
  intro cfg pod port s
  rw [addPodToCluster_no_shutdown]
  refine ⟨rfl, fun h => ?_, fun h => ?_⟩
  · simp [addPodCommands, h, loadToRuntimeCmds, cmdText]
  · simp [addPodCommands, h, loadToRuntimeCmds, cmdText]

/-- Closed instance of the C6 theorem at the spec's Scenario A member:
primary-role `m1` at address `10.0.0.5`, cluster port 6032. -/
theorem addPodToCluster_command_sequence_witness :
    ((addPodToCluster [] (fun _ => false) (fun _ => none)
      ⟨"m1", "10.0.0.5", "core", "Running"⟩ 6032 ⟨[], []⟩).2.1.map cmdText)
      = ["DELETE FROM proxysql_servers WHERE hostname = 'proxysql-core'",
         "INSERT INTO proxysql_servers VALUES (\"10.0.0.5\", 6032, 0, \"m1\")",
         "LOAD PROXYSQL SERVERS TO RUNTIME",
         "LOAD ADMIN VARIABLES TO RUNTIME",
         "LOAD MYSQL VARIABLES TO RUNTIME",
         "LOAD MYSQL SERVERS TO RUNTIME",
         "LOAD MYSQL USERS TO RUNTIME",
         "LOAD MYSQL QUERY RULES TO RUNTIME"] :=
  ((addPodToCluster_command_sequence []
    ⟨"m1", "10.0.0.5", "core", "Running"⟩ 6032 ⟨[], []⟩).2.1 rfl).trans (by decide)

/-- Under the monotone shutdown oracle `shutAt k`, the join procedure
executes exactly the commands before check index `k` (the top guard being
check 0) and returns nil. -/
theorem addPodToCluster_shutAt (cfg : List ServerRow) (pod : Pod) (port : Int)
    (s : TopoState) (k : Nat) :
    addPodToCluster cfg (shutAt k) (fun _ => none) pod port s
      = (((addPodCommands pod port).take (k - 1)).foldl (applyCmd cfg) s,
         (addPodCommands pod port).take (k - 1), none) := by
  by_cases hk : k = 0
  · subst hk
    have h0 : shutAt 0 0 = true := by simp [shutAt]
    simp [addPodToCluster, h0]
  · have h0 : shutAt k 0 = false := by
      simp only [shutAt, decide_eq_false_iff_not]
      omega
    unfold addPodToCluster
    simp only [h0, Bool.false_eq_true, if_false]
    rw [shutAt_shift k 1, runCmds_shutAt]
    simp

/-- Under the monotone shutdown oracle `shutAt k`, the leave procedure
executes exactly the commands before check index `k` and returns nil. -/
theorem removePodFromCluster_shutAt (cfg : List ServerRow) (pod : Pod)
    (s : TopoState) (k : Nat) :
    removePodFromCluster cfg (shutAt k) (fun _ => none) pod s
      = (((removePodCommands pod).take (k - 1)).foldl (applyCmd cfg) s,
         (removePodCommands pod).take (k - 1), none) := by
  by_cases hk : k = 0
  · subst hk
    have h0 : shutAt 0 0 = true := by simp [shutAt]
    simp [removePodFromCluster, h0]
  · have h0 : shutAt k 0 = false := by
      simp only [shutAt, decide_eq_false_iff_not]
      omega
    unfold removePodFromCluster
    simp only [h0, Bool.false_eq_true, if_false]
    rw [shutAt_shift k 1, runCmds_shutAt]
    simp

/-- C7: for the join, leave and resync procedures, the shutdown phase is
checked immediately before each individual command; when draining begins
at check index `k`, exactly the commands before that check have executed
and the procedure returns success (nil), not an error. Check index 0 is
the guard at the top of each procedure, and for the resync procedure
check index 1 is the guard inside the missing-core-pods query. -/
theorem shutdown_check_before_each_command :
    ∀ (cfg : List ServerRow) (pod : Pod) (port : Int) (s : TopoState) (k : Nat),
      ((addPodToCluster cfg (shutAt k) (fun _ => none) pod port s).2.2 = none ∧
        (addPodToCluster cfg (shutAt k) (fun _ => none) pod port s).2.1
          = (addPodCommands pod port).take (k - 1)) ∧
      ((removePodFromCluster cfg (shutAt k) (fun _ => none) pod s).2.2 = none ∧
        (removePodFromCluster cfg (shutAt k) (fun _ => none) pod s).2.1
          = (removePodCommands pod).take (k - 1)) ∧
      (∀ m : Int, 0 < m →
        (SatelliteResync cfg (shutAt k) (fun _ => none) (Except.ok m) s).2.2 = none ∧
        (SatelliteResync cfg (shutAt k) (fun _ => none) (Except.ok m) s).2.1
          = resyncCommands.take (k - 2)) := by
  intro cfg pod port s k
  refine ⟨?_, ?_, ?_⟩
  · rw [addPodToCluster_shutAt]
    exact ⟨rfl, rfl⟩
  · rw [removePodFromCluster_shutAt]
    exact ⟨rfl, rfl⟩
  · intro m hm
    match k with
    | 0 =>
      have h0 : shutAt 0 0 = true := by simp [shutAt]
      simp [SatelliteResync, h0]
    | 1 =>
      have h0 : shutAt 1 0 = false := by simp [shutAt]
      have h1 : shutAt 1 1 = true := by simp [shutAt]
      simp [SatelliteResync, h0, h1]
    | (k2 + 2) =>
      have h0 : shutAt (k2 + 2) 0 = false := by
        simp only [shutAt, decide_eq_false_iff_not]
        omega
      have h1 : shutAt (k2 + 2) 1 = false := by
        simp only [shutAt, decide_eq_false_iff_not]
        omega
      simp only [SatelliteResync, h0, h1, Bool.false_eq_true, if_false]
      rw [shutAt_shift (k2 + 2) 2, runCmds_shutAt]
      simp [hm]

/-- Closed instance of the C7 theorem: with draining observed from check
index 2 on, the join procedure executes only the placeholder delete and
returns nil, and the resync procedure returns nil. -/
theorem shutdown_check_before_each_command_witness :
    (addPodToCluster [] (shutAt 2) (fun _ => none)
      ⟨"m1", "10.0.0.5", "core", "Running"⟩ 6032 ⟨[], []⟩).2.2 = none ∧
    (addPodToCluster [] (shutAt 2) (fun _ => none)
      ⟨"m1", "10.0.0.5", "core", "Running"⟩ 6032 ⟨[], []⟩).2.1
      = (addPodCommands ⟨"m1", "10.0.0.5", "core", "Running"⟩ 6032).take 1 ∧
    (SatelliteResync [] (shutAt 2) (fun _ => none) (Except.ok 3) ⟨[], []⟩).2.2 = none :=
  ⟨(shutdown_check_before_each_command []
      ⟨"m1", "10.0.0.5", "core", "Running"⟩ 6032 ⟨[], []⟩ 2).1.1,
    (shutdown_check_before_each_command []
      ⟨"m1", "10.0.0.5", "core", "Running"⟩ 6032 ⟨[], []⟩ 2).1.2,
    ((shutdown_check_before_each_command []
      ⟨"m1", "10.0.0.5", "core", "Running"⟩ 6032 ⟨[], []⟩ 2).2.2 3 (by decide)).1⟩

/-- C3 counterexample: the placeholder invariant, stated as an iff, is
not preserved by the procedures. Starting from the bootstrap store that
holds only the placeholder row (which satisfies the invariant), a full
join of primary member m1 followed by a full leave of m1 produces the
empty store: zero primary rows but no placeholder row, because the leave
procedure never restores the placeholder. -/
theorem placeholderInvariant_not_preserved :
    placeholderInvariant
      { servers := [⟨"proxysql-core", 6032, 0, "proxysql-core"⟩],
        runtimeServers := [] } ∧
    ¬ placeholderInvariant
      ([TopoOp.join ⟨"m1", "10.0.0.5", "core", "Running"⟩ 6032 1000,
        TopoOp.leave ⟨"m1", "10.0.0.5", "core", "Running"⟩ 1000].foldl
        (applyOp [])
        { servers := [⟨"proxysql-core", 6032, 0, "proxysql-core"⟩],
          runtimeServers := [] }) := by
  constructor
  · simp only [placeholderInvariant]
    decide
  · simp only [placeholderInvariant]
    decide

/-- Rows surviving a filter that removes the placeholder hostname never
contain the placeholder. -/
theorem any_ph_filter (l : List ServerRow) :
    (l.filter (fun r => r.hostname != placeholderHost)).any
      (fun r => r.hostname == placeholderHost) = false := by
  simp [List.any_eq_false, List.mem_filter]

/-- Appending a row with a non-placeholder hostname keeps the placeholder
absent. -/
theorem any_ph_append_row (l : List ServerRow) (row : ServerRow)
    (hrow : row.hostname ≠ placeholderHost) :
    ((l.filter (fun r => r.hostname != placeholderHost)) ++ [row]).any
      (fun r => r.hostname == placeholderHost) = false := by
  simp [List.any_append, any_ph_filter, hrow]

/-- If the placeholder occurs among the rows surviving a filter, it
occurs among the original rows. -/
theorem any_ph_of_filter {p : ServerRow → Bool} {l : List ServerRow}
    (h : (l.filter p).any (fun r => r.hostname == placeholderHost) = true) :
    l.any (fun r => r.hostname == placeholderHost) = true := by
  rw [List.any_eq_true] at h ⊢
  obtain ⟨r, hr, hph⟩ := h
  exact ⟨r, (List.mem_filter.mp hr).1, hph⟩

/-- Filtering first can only shrink the result of a second filter. -/
theorem length_filter_filter_le {α : Type} (p q : α → Bool) (l : List α) :
    ((l.filter p).filter q).length ≤ (l.filter q).length := by
  rw [List.filter_comm]
  exact List.length_filter_le _ _

/-- Filtering twice with the same predicate filters once. -/
theorem filter_idem {α : Type} (p : α → Bool) (l : List α) :
    (l.filter p).filter p = l.filter p := by
  rw [List.filter_filter]
  congr 1
  funext a
  exact Bool.and_self _

/-- The six load-to-runtime commands leave the `proxysql_servers` table
unchanged. -/
theorem applyCmd_load_servers (cfg : List ServerRow) (s : TopoState) :
    ∀ c ∈ loadToRuntimeCmds, (applyCmd cfg s c).servers = s.servers := by
  intro c hc
  fin_cases hc <;> rfl

/-- Folding any selection of load-to-runtime commands leaves the
`proxysql_servers` table unchanged. -/
theorem foldl_loads_servers (cfg : List ServerRow) :
    ∀ (l : List Cmd), (∀ c ∈ l, c ∈ loadToRuntimeCmds) →
      ∀ s : TopoState, (l.foldl (applyCmd cfg) s).servers = s.servers := by
  intro l
  induction l with
  | nil => intro _ s; rfl
  | cons c rest ih =>
    intro hmem s
    show (rest.foldl (applyCmd cfg) (applyCmd cfg s c)).servers = s.servers
    rw [ih (fun d hd => hmem d (List.mem_cons_of_mem c hd)) (applyCmd cfg s c),
      applyCmd_load_servers cfg s c (hmem c (List.mem_cons_self c rest))]

/-- One join or leave procedure, run to any shutdown cutoff, preserves
the forward direction of the placeholder invariant, provided the joined
pod's address is not the sentinel hostname. -/
theorem oneDirInv_applyOp (cfg : List ServerRow) (s : TopoState) (op : TopoOp)
    (hip : op.ipOk) (h : oneDirInv s) : oneDirInv (applyOp cfg s op) := by
  cases op with
  | join pod port cut =>
    have hip' : pod.ip ≠ placeholderHost := hip
    show oneDirInv (addPodToCluster cfg (shutAt cut) (fun _ => none) pod port s).1
    rw [addPodToCluster_shutAt]
    generalize cut - 1 = n
    by_cases hcomp : pod.component = "core"
    · have hcmds : addPodCommands pod port
          = Cmd.deletePlaceholder
            :: Cmd.insertServer pod.ip port 0 pod.name :: loadToRuntimeCmds := by
        simp [addPodCommands, hcomp]
      rw [hcmds]
      match n with
      | 0 => exact h
      | 1 =>
        have hserv : (((Cmd.deletePlaceholder
            :: Cmd.insertServer pod.ip port 0 pod.name :: loadToRuntimeCmds).take 1).foldl
              (applyCmd cfg) s).servers
            = s.servers.filter (fun r => r.hostname != placeholderHost) := rfl
        intro hp
        simp only [placeholderPresent, hserv] at hp
        rw [any_ph_filter] at hp
        exact absurd hp (by simp)
      | (m + 2) =>
        have hserv : (((Cmd.deletePlaceholder
            :: Cmd.insertServer pod.ip port 0 pod.name :: loadToRuntimeCmds).take
              (m + 2)).foldl (applyCmd cfg) s).servers
            = s.servers.filter (fun r => r.hostname != placeholderHost)
              ++ [⟨pod.ip, port, 0, pod.name⟩] := by
          rw [List.take_succ_cons, List.take_succ_cons, List.foldl_cons, List.foldl_cons]
          rw [foldl_loads_servers cfg _
            (fun c hc => List.take_subset m loadToRuntimeCmds hc)]
          rfl
        intro hp
        simp only [placeholderPresent, hserv] at hp
        rw [any_ph_append_row _ _ hip'] at hp
        exact absurd hp (by simp)
    · have hcmds : addPodCommands pod port
          = Cmd.deletePlaceholder :: loadToRuntimeCmds := by
        simp [addPodCommands, hcomp]
      rw [hcmds]
      match n with
      | 0 => exact h
      | (m + 1) =>
        have hserv : (((Cmd.deletePlaceholder :: loadToRuntimeCmds).take (m + 1)).foldl
              (applyCmd cfg) s).servers
            = s.servers.filter (fun r => r.hostname != placeholderHost) := by
          rw [List.take_succ_cons, List.foldl_cons]
          rw [foldl_loads_servers cfg _
            (fun c hc => List.take_subset m loadToRuntimeCmds hc)]
          rfl
        intro hp
        simp only [placeholderPresent, hserv] at hp
        rw [any_ph_filter] at hp
        exact absurd hp (by simp)
  | leave pod cut =>
    show oneDirInv (removePodFromCluster cfg (shutAt cut) (fun _ => none) pod s).1
    rw [removePodFromCluster_shutAt]
    generalize cut - 1 = n
    by_cases hcomp : pod.component = "core"
    · have hcmds : removePodCommands pod
          = Cmd.deleteHostname pod.ip :: loadToRuntimeCmds := by
        simp [removePodCommands, hcomp]
      rw [hcmds]
      match n with
      | 0 => exact h
      | (m + 1) =>
        have hserv : (((Cmd.deleteHostname pod.ip :: loadToRuntimeCmds).take (m + 1)).foldl
              (applyCmd cfg) s).servers
            = s.servers.filter (fun r => r.hostname != pod.ip) := by
          rw [List.take_succ_cons, List.foldl_cons]
          rw [foldl_loads_servers cfg _
            (fun c hc => List.take_subset m loadToRuntimeCmds hc)]
          rfl
        intro hp
        simp only [placeholderPresent, hserv] at hp
        have hs0 : primaryRowCount s = 0 := h (by
          simp only [placeholderPresent]
          exact any_ph_of_filter hp)
        simp only [primaryRowCount] at hs0 ⊢
        rw [hserv]
        have hle := length_filter_filter_le
          (fun r => r.hostname != pod.ip)
          (fun r => r.hostname != placeholderHost) s.servers
        omega
    · have hcmds : removePodCommands pod = loadToRuntimeCmds := by
        simp [removePodCommands, hcomp]
      rw [hcmds]
      have hserv : ((loadToRuntimeCmds.take n).foldl (applyCmd cfg) s).servers
          = s.servers :=
        foldl_loads_servers cfg _ (fun c hc => List.take_subset n loadToRuntimeCmds hc) s
      intro hp
      simp only [placeholderPresent, hserv] at hp
      have := h (by simp only [placeholderPresent]; exact hp)
      simp only [primaryRowCount, hserv] at this ⊢
      exact this

/-- C3 amended: in every Topology Store state reachable by join and leave
procedures from a state satisfying it, the forward direction of the
placeholder invariant holds: if the placeholder row is present, the count
of primary-role rows is zero. The reverse direction is refuted by the
counterexample: leaves and non-primary joins remove or keep the
placeholder absent without restoring it when the last primary row goes.
The joined pods' addresses must not collide with the sentinel hostname. -/
theorem placeholder_invariant_one_direction :
    ∀ (cfg : List ServerRow) (ops : List TopoOp) (s₀ : TopoState),
      (∀ op ∈ ops, op.ipOk) → oneDirInv s₀ →
      oneDirInv (ops.foldl (applyOp cfg) s₀) := by
  intro cfg ops
  induction ops with
  | nil => intro s₀ _ h; exact h
  | cons op rest ih =>
    intro s₀ hops h
    exact ih (applyOp cfg s₀ op) (fun o ho => hops o (List.mem_cons_of_mem op ho))
      (oneDirInv_applyOp cfg s₀ op (hops op (List.mem_cons_self op rest)) h)

/-- Closed instance of the amended C3 theorem: a join and a leave from
the bootstrap store keep the forward direction of the invariant. -/
theorem placeholder_invariant_one_direction_witness :
    oneDirInv ([TopoOp.join ⟨"m1", "10.0.0.5", "core", "Running"⟩ 6032 1000,
      TopoOp.leave ⟨"m1", "10.0.0.5", "core", "Running"⟩ 1000].foldl
      (applyOp [])
      { servers := [⟨"proxysql-core", 6032, 0, "proxysql-core"⟩],
        runtimeServers := [] }) :=
  placeholder_invariant_one_direction [] _ _ (by
    intro op hop
    simp only [List.mem_cons, List.mem_singleton] at hop
    rcases hop with rfl | hop
    · simp [TopoOp.ipOk, placeholderHost]
    · rcases hop with rfl | hop
      · simp [TopoOp.ipOk]
      · cases hop) (by simp only [oneDirInv]; decide)

/-- A pod already counted in `proxysql_servers` makes `podAdded` an
immediate no-op. -/
theorem podAdded_of_count_pos (cfg : List ServerRow) (shut : Nat → Bool)
    (execErr : Nat → Option String) (pod : Pod) (port : Int) (t : TopoState)
    (h : 0 < (t.servers.filter (fun r => r.hostname == pod.ip)).length) :
    podAdded cfg true shut execErr pod port t = t := by
  simp [podAdded, h]

/-- A pod not yet counted in `proxysql_servers` makes `podAdded` run the
join procedure. -/
theorem podAdded_of_count_zero (cfg : List ServerRow) (shut : Nat → Bool)
    (execErr : Nat → Option String) (pod : Pod) (port : Int) (t : TopoState)
    (h : ¬ 0 < (t.servers.filter (fun r => r.hostname == pod.ip)).length) :
    podAdded cfg true shut execErr pod port t
      = (addPodToCluster cfg shut execErr pod port t).1 := by
  simp [podAdded, h]

/-- C10: running the join procedure (`podAdded` followed, when the row is
absent, by `addPodToCluster`) twice for the same member, with no other
operations interleaved, no shutdown race and no command errors, produces
the same Topology Store end-state as running it once. -/
theorem podAdded_idempotent :
    ∀ (cfg : List ServerRow) (pod : Pod) (port : Int) (s : TopoState),
      podAdded cfg true (fun _ => false) (fun _ => none) pod port
        (podAdded cfg true (fun _ => false) (fun _ => none) pod port s)
      = podAdded cfg true (fun _ => false) (fun _ => none) pod port s := by
  intro cfg pod port s
  by_cases h : 0 < (s.servers.filter (fun r => r.hostname == pod.ip)).length
  · rw [podAdded_of_count_pos cfg _ _ pod port s h,
      podAdded_of_count_pos cfg _ _ pod port s h]
  · rw [podAdded_of_count_zero cfg _ _ pod port s h, addPodToCluster_no_shutdown]
    by_cases hcomp : pod.component = "core"
    · have hcmds : addPodCommands pod port
          = Cmd.deletePlaceholder
            :: Cmd.insertServer pod.ip port 0 pod.name :: loadToRuntimeCmds := by
        simp [addPodCommands, hcomp]
      rw [hcmds]
      apply podAdded_of_count_pos
      have hserv : (((Cmd.deletePlaceholder
          :: Cmd.insertServer pod.ip port 0 pod.name :: loadToRuntimeCmds)).foldl
            (applyCmd cfg) s).servers
          = s.servers.filter (fun r => r.hostname != placeholderHost)
            ++ [⟨pod.ip, port, 0, pod.name⟩] := rfl
      rw [hserv, List.filter_append]
      simp
    · have hcmds : addPodCommands pod port
          = Cmd.deletePlaceholder :: loadToRuntimeCmds := by
        simp [addPodCommands, hcomp]
      rw [hcmds]
      have hstate : ((Cmd.deletePlaceholder :: loadToRuntimeCmds).foldl
          (applyCmd cfg) s)
          = ⟨s.servers.filter (fun r => r.hostname != placeholderHost),
             s.servers.filter (fun r => r.hostname != placeholderHost)⟩ := rfl
      rw [hstate]
      have hc0 : (s.servers.filter (fun r => r.hostname == pod.ip)).length = 0 := by
        omega
      have hcz : ¬ 0 < ((s.servers.filter (fun r => r.hostname != placeholderHost)).filter
          (fun r => r.hostname == pod.ip)).length := by
        have hle := length_filter_filter_le
          (fun r => r.hostname != placeholderHost)
          (fun r => r.hostname == pod.ip) s.servers
        omega
      rw [podAdded_of_count_zero cfg _ _ pod port _ hcz, addPodToCluster_no_shutdown,
        hcmds]
      have hstate2 : ((Cmd.deletePlaceholder :: loadToRuntimeCmds).foldl (applyCmd cfg)
          (⟨s.servers.filter (fun r => r.hostname != placeholderHost),
            s.servers.filter (fun r => r.hostname != placeholderHost)⟩ : TopoState))
          = ⟨(s.servers.filter (fun r => r.hostname != placeholderHost)).filter
              (fun r => r.hostname != placeholderHost),
             (s.servers.filter (fun r => r.hostname != placeholderHost)).filter
              (fun r => r.hostname != placeholderHost)⟩ := rfl
      rw [hstate2, filter_idem]

end ProxysqlAgent
